import Mathlib

/-!
Verification development for the SUSPECT daily deduction puzzle game.

The definitions below are a shallow embedding of the game-state core:

* `gameReducer` embeds the session reducer of `src/contexts/GameContext.tsx`.
* `playerReducer` embeds the durable player-record reducer of
  `src/contexts/PlayerContext.tsx`; storage snapshots accepted by the
  load-time shape validation are embedded as `StoredSnapshot`.
* `calculateStars`, `getRatingLabel`, `currentStars` embed the scoring
  helpers of `src/lib/puzzleUtils.ts` and `src/lib/constants.ts`.
* `getDailyPuzzleIndex`, `getDailyPuzzleNumber` embed the daily selector of
  `src/lib/puzzleUtils.ts`; JavaScript `%` on integers is `Int.tmod` and
  `Math.floor` of an integer quotient is `Int.fdiv`.
* `checkAchievements` embeds the achievement evaluator of
  `src/lib/achievements.ts`.
* `runConfirmAccusation` embeds the accusation-confirm orchestration of
  `handleConfirmAccusation` in `src/components/game/PuzzleView.tsx`:
  values captured before the fetch, an interleaving of user-dispatched
  session actions during the fetch and during the deliberation delay, the
  resolution dispatches, and the recorded completion.  Timestamps and
  date keys are passed explicitly where the source reads the clock.
-/

namespace SuspectGame

-- ---------------------------------------------------------------------------
-- Puzzle data model (src/lib/types.ts)
-- ---------------------------------------------------------------------------

structure Suspect where
  id : String
  name : String
  role : String
  motive : String
  alibi : String
deriving DecidableEq

inductive ClueType where
  | witness
  | physical
  | contradiction
deriving DecidableEq

structure Clue where
  id : String
  type : ClueType
  title : String
  content : String
  order : Int
deriving DecidableEq

structure Hint where
  id : String
  text : String
  order : Int
deriving DecidableEq

structure Puzzle where
  id : String
  version : Int
  genre : String
  difficulty : Int
  title : String
  setting : String
  premise : String
  suspects : List Suspect
  clues : List Clue
  hints : List Hint
deriving DecidableEq

structure Solution where
  culprit : String
  explanation : String
  funFact : String
deriving DecidableEq

-- ---------------------------------------------------------------------------
-- Constants (src/lib/constants.ts)
-- ---------------------------------------------------------------------------

/-- Date epoch for daily puzzle seeding: `Date.UTC(2026, 1, 7)`, i.e.
Feb 7 2026 UTC in milliseconds since the Unix epoch. -/
def EPOCH : Int := 1770422400000

def MAX_CLUES : Nat := 3

/-- Modelled from the spec: the defining line of `MAX_HINTS` in
`src/lib/constants.ts` is not part of the sources; the spec fixes the
revealed-hint cap at 2 (set of revealed hint ids has size at most 2). -/
def MAX_HINTS : Nat := 2

/-- Star ratings table keyed by clues used (`STAR_RATINGS` in
`src/lib/constants.ts`); lookup of an absent key yields `none`. -/
def STAR_RATINGS (cluesUsed : Int) : Option (Int × String) :=
  if cluesUsed = 0 then some (4, "MASTERMIND")
  else if cluesUsed = 1 then some (3, "SHARP-EYED")
  else if cluesUsed = 2 then some (2, "PERSISTENT")
  else if cluesUsed = 3 then some (1, "THOROUGH")
  else none

-- ---------------------------------------------------------------------------
-- Scoring helpers (src/lib/puzzleUtils.ts)
-- ---------------------------------------------------------------------------

def calculateStars (cluesUsed : Int) : Int :=
  ((STAR_RATINGS cluesUsed).map Prod.fst).getD 1

def getRatingLabel (cluesUsed : Int) : String :=
  ((STAR_RATINGS cluesUsed).map Prod.snd).getD "THOROUGH"

-- ---------------------------------------------------------------------------
-- Daily selector (src/lib/puzzleUtils.ts)
-- ---------------------------------------------------------------------------

/-- Days since the epoch: `Math.floor((now - EPOCH) / 86_400_000)`. -/
def daysSinceEpoch (now : Int) : Int :=
  Int.fdiv (now - EPOCH) 86400000

/-- Daily index: `((daysSinceEpoch % poolSize) + poolSize) % poolSize`,
with `%` the JavaScript truncating remainder (`Int.tmod`). -/
def getDailyPuzzleIndex (poolSize : Int) (now : Int) : Int :=
  Int.tmod (Int.tmod (daysSinceEpoch now) poolSize + poolSize) poolSize

/-- Puzzle number: days since epoch plus one. -/
def getDailyPuzzleNumber (now : Int) : Int :=
  daysSinceEpoch now + 1

-- ---------------------------------------------------------------------------
-- Session state machine (src/contexts/GameContext.tsx)
-- ---------------------------------------------------------------------------

inductive GameMode where
  | daily
  | practice
deriving DecidableEq

inductive GameStatus where
  | playing
  | solved
  | failed
deriving DecidableEq

structure GameState where
  puzzleId : String
  mode : GameMode
  puzzle : Option Puzzle
  solution : Option Solution
  revealedClues : List String
  revealedHints : List String
  selectedSuspect : Option String
  status : GameStatus
  startedAt : Int
  solvedAt : Option Int
  expandedSuspect : Option String
deriving DecidableEq

inductive GameAction where
  | START_PUZZLE (puzzle : Puzzle) (mode : GameMode)
  | REVEAL_CLUE (clueId : String)
  | REVEAL_HINT (hintId : String)
  | SELECT_SUSPECT (suspectId : String)
  | EXPAND_SUSPECT (suspectId : Option String)
  | MAKE_ACCUSATION
  | SET_SOLUTION (solution : Solution)
  | RESET
deriving DecidableEq

def gameInitialState : GameState :=
  { puzzleId := ""
    mode := GameMode.daily
    puzzle := none
    solution := none
    revealedClues := []
    revealedHints := []
    selectedSuspect := none
    status := GameStatus.playing
    startedAt := 0
    solvedAt := none
    expandedSuspect := none }

/-- Session reducer; `now` stands for the `Date.now()` reads performed by
the `START_PUZZLE` and `MAKE_ACCUSATION` branches. -/
def gameReducer (now : Int) (state : GameState) (action : GameAction) : GameState :=
  match action with
  | GameAction.START_PUZZLE puzzle mode =>
      { gameInitialState with
          puzzleId := puzzle.id
          mode := mode
          puzzle := some puzzle
          startedAt := now }
  | GameAction.REVEAL_CLUE clueId =>
      if state.status ≠ GameStatus.playing then state
      else if MAX_CLUES ≤ state.revealedClues.length then state
      else if state.revealedClues.contains clueId then state
      else { state with revealedClues := state.revealedClues ++ [clueId] }
  | GameAction.REVEAL_HINT hintId =>
      if state.status ≠ GameStatus.playing then state
      else if MAX_HINTS ≤ state.revealedHints.length then state
      else if state.revealedHints.contains hintId then state
      else { state with revealedHints := state.revealedHints ++ [hintId] }
  | GameAction.SELECT_SUSPECT suspectId =>
      if state.status ≠ GameStatus.playing then state
      else { state with selectedSuspect := some suspectId }
  | GameAction.EXPAND_SUSPECT suspectId =>
      { state with
          expandedSuspect :=
            if state.expandedSuspect == suspectId then none else suspectId }
  | GameAction.MAKE_ACCUSATION =>
      if state.status ≠ GameStatus.playing then state
      else
        match state.selectedSuspect, state.solution with
        | some sel, some sol =>
            { state with
                status :=
                  if sel == sol.culprit then GameStatus.solved else GameStatus.failed
                solvedAt := some now }
        | _, _ => state
  | GameAction.SET_SOLUTION solution =>
      { state with solution := some solution }
  | GameAction.RESET => gameInitialState

/-- Live star display during a session:
`MAX_CLUES + 1 - state.revealedClues.length`. -/
def currentStars (state : GameState) : Int :=
  (MAX_CLUES : Int) + 1 - (state.revealedClues.length : Int)

-- ---------------------------------------------------------------------------
-- Player record (src/lib/types.ts, src/contexts/PlayerContext.tsx)
-- ---------------------------------------------------------------------------

structure PuzzleCompletion where
  solvedAt : String
  correct : Bool
  cluesUsed : Int
  timeSeconds : Int
  stars : Int
  difficulty : Option Int
  hintsUsed : Option Int
deriving DecidableEq

structure Streak where
  current : Int
  max : Int
  lastDailyDate : String
deriving DecidableEq

structure PlayerSettings where
  reduceMotion : Bool
deriving DecidableEq

/-- The `completedPuzzles` record is a JavaScript object keyed by puzzle id;
it is embedded as an association list with unique keys in insertion order. -/
structure PlayerState where
  completedPuzzles : List (String × PuzzleCompletion)
  streak : Streak
  settings : PlayerSettings
  hasSeenTutorial : Bool
  achievements : List String
deriving DecidableEq

/-- Object spread update `\x7b...m, [k]: v\x7d`: replaces the value in place
when the key is present, otherwise appends the new entry. -/
def recordSet (m : List (String × PuzzleCompletion)) (k : String)
    (v : PuzzleCompletion) : List (String × PuzzleCompletion) :=
  if m.any (fun p => p.fst == k) then
    m.map (fun p => if p.fst == k then (k, v) else p)
  else m ++ [(k, v)]

/-- Object property lookup `m[k]`. -/
def recordGet (m : List (String × PuzzleCompletion)) (k : String) :
    Option PuzzleCompletion :=
  (m.find? (fun p => p.fst == k)).map Prod.snd

/-- Date environment: the values the reducer reads from the ambient clock
(`new Date().toISOString()`, `getTodayUTC()`, and the derived yesterday
date key). -/
structure DateEnv where
  nowISO : String
  today : String
  yesterday : String
deriving DecidableEq

/-- A persisted snapshot accepted by the basic shape validation of
`loadFromStorage`: the validation only requires the keys
`completedPuzzles`, `streak` and `settings` to be present, so the
remaining fields may be absent (older snapshots). -/
structure StoredSnapshot where
  completedPuzzles : List (String × PuzzleCompletion)
  streak : Streak
  settings : PlayerSettings
  hasSeenTutorial : Option Bool
  achievements : Option (List String)
deriving DecidableEq

inductive PlayerAction where
  | COMPLETE_PUZZLE (id : String) (correct : Bool)
      (cluesUsed timeSeconds stars : Int) (difficulty hintsUsed : Option Int)
  | UNLOCK_ACHIEVEMENTS (ids : List String)
  | UPDATE_STREAK
  | TOGGLE_REDUCE_MOTION
  | DISMISS_TUTORIAL
  | LOAD_STATE (snapshot : StoredSnapshot)
deriving DecidableEq

def PlayerAction.isLoadState : PlayerAction → Bool
  | PlayerAction.LOAD_STATE _ => true
  | _ => false

def playerInitialState : PlayerState :=
  { completedPuzzles := []
    streak := { current := 0, max := 0, lastDailyDate := "" }
    settings := { reduceMotion := false }
    hasSeenTutorial := false
    achievements := [] }

/-- Player-record reducer of `src/contexts/PlayerContext.tsx`. -/
def playerReducer (env : DateEnv) (state : PlayerState)
    (action : PlayerAction) : PlayerState :=
  match action with
  | PlayerAction.COMPLETE_PUZZLE id correct cluesUsed timeSeconds stars
      difficulty hintsUsed =>
      let completion : PuzzleCompletion :=
        { solvedAt := env.nowISO
          correct := correct
          cluesUsed := cluesUsed
          timeSeconds := timeSeconds
          stars := stars
          difficulty := difficulty
          hintsUsed := hintsUsed }
      { state with
          completedPuzzles := recordSet state.completedPuzzles id completion }
  | PlayerAction.UNLOCK_ACHIEVEMENTS ids =>
      let newIds := ids.filter (fun id => !(state.achievements.contains id))
      if newIds.length = 0 then state
      else { state with achievements := state.achievements ++ newIds }
  | PlayerAction.UPDATE_STREAK =>
      if state.streak.lastDailyDate == env.today then state
      else
        let isConsecutive := state.streak.lastDailyDate == env.yesterday
        let newCurrent := if isConsecutive then state.streak.current + 1 else 1
        let newMax := max state.streak.max newCurrent
        { state with
            streak :=
              { current := newCurrent, max := newMax, lastDailyDate := env.today } }
  | PlayerAction.TOGGLE_REDUCE_MOTION =>
      { state with
          settings := { state.settings with
                          reduceMotion := !state.settings.reduceMotion } }
  | PlayerAction.DISMISS_TUTORIAL =>
      { state with hasSeenTutorial := true }
  | PlayerAction.LOAD_STATE snapshot =>
      { completedPuzzles := snapshot.completedPuzzles
        streak := snapshot.streak
        settings := snapshot.settings
        hasSeenTutorial :=
          snapshot.hasSeenTutorial.getD playerInitialState.hasSeenTutorial
        achievements := snapshot.achievements.getD [] }

-- ---------------------------------------------------------------------------
-- Achievement evaluator (src/lib/achievements.ts)
-- ---------------------------------------------------------------------------

structure CompletionInfo where
  correct : Bool
  cluesUsed : Int
  timeSeconds : Int
  stars : Int
  difficulty : Option Int
  hintsUsed : Option Int
deriving DecidableEq

/-- Achievement evaluator `checkAchievements`: evaluates each predicate in
source order, accumulating newly unlocked ids that are neither already
unlocked nor already accumulated. -/
def checkAchievements (state : PlayerState) (justCompleted : CompletionInfo)
    (packPuzzleLists : Option (List (List String))) : List String :=
  let unlocked := state.achievements
  let tryUnlock := fun (acc : List String) (id : String) =>
    if unlocked.contains id || acc.contains id then acc else acc ++ [id]
  let totalCorrect :=
    ((state.completedPuzzles.map Prod.snd).filter (fun c => c.correct)).length
  let acc : List String := []
  let acc :=
    if justCompleted.correct && decide (1 ≤ totalCorrect) then
      tryUnlock acc "first-case"
    else acc
  let acc :=
    if justCompleted.correct && justCompleted.stars == 4 then
      tryUnlock acc "mastermind"
    else acc
  let acc :=
    if justCompleted.correct && justCompleted.timeSeconds < 60 then
      tryUnlock acc "speed-demon"
    else acc
  let acc :=
    if justCompleted.correct && justCompleted.cluesUsed == 3 then
      tryUnlock acc "no-stone-unturned"
    else acc
  let acc :=
    if 7 ≤ state.streak.current ∨ 7 ≤ state.streak.max then
      tryUnlock acc "perfect-week"
    else acc
  let acc := if 10 ≤ totalCorrect then tryUnlock acc "veteran" else acc
  let acc :=
    if justCompleted.correct &&
        (justCompleted.hintsUsed == some 0 || justCompleted.hintsUsed == none) then
      tryUnlock acc "hint-free"
    else acc
  let acc :=
    if justCompleted.correct && justCompleted.stars == 4 &&
        justCompleted.difficulty == some 3 then
      tryUnlock acc "hard-boiled"
    else acc
  let acc :=
    if 30 ≤ state.streak.current ∨ 30 ≤ state.streak.max then
      tryUnlock acc "streak-master"
    else acc
  let acc :=
    match packPuzzleLists with
    | none => acc
    | some packs =>
        if packs.any (fun pack =>
            pack.all (fun pid =>
              match recordGet state.completedPuzzles pid with
              | some c => c.correct
              | none => false)) then
          tryUnlock acc "completionist"
        else acc
  acc

-- ---------------------------------------------------------------------------
-- Accusation-confirm orchestration (src/components/game/PuzzleView.tsx)
-- ---------------------------------------------------------------------------

/-- The completion payload dispatched by `completePuzzle` from the confirm
flow. -/
structure RecordedCompletion where
  id : String
  correct : Bool
  cluesUsed : Int
  timeSeconds : Int
  stars : Int
  difficulty : Option Int
  hintsUsed : Option Int
deriving DecidableEq

/-- Observable outcome of one execution of `handleConfirmAccusation`:
the final session state, the local view flags, the completion payload
dispatched to the player record (if any), and whether `updateStreak` was
dispatched. -/
structure ConfirmResult where
  game : GameState
  fetchError : Option String
  isFetchingSolution : Bool
  recorded : Option RecordedCompletion
  streakUpdated : Bool
deriving DecidableEq

/-- Dispatch a list of session actions in order. -/
def applyActions (now : Int) (g : GameState) (actions : List GameAction) :
    GameState :=
  actions.foldl (gameReducer now) g

/-- The values `handleConfirmAccusation` captures before its first
suspension point: the selected suspect id and the revealed-clue count. -/
def confirmCapture (g : GameState) : Option String × Nat :=
  (g.selectedSuspect, g.revealedClues.length)

/-- One interleaved execution of `handleConfirmAccusation`.
`fetchResult` is the outcome of the awaited `fetchSolution` call
(`none` = rejection, caught by the local handler).  `gapDuringFetch` and
`gapDuringDelay` are the session actions other event handlers dispatch
while the fetch, respectively the deliberation timeout, is pending.  The
closure reads of `state` inside the callback body all see the snapshot
taken when the handler was invoked, so the suspect id, the clue count and
the hint count are captured from `g0`; the reducer dispatches
(`SET_SOLUTION`, `MAKE_ACCUSATION`) act on the live session state. -/
def runConfirmAccusation (g0 : GameState) (puzzleId : String)
    (puzzleDifficulty : Int) (mode : GameMode) (fetchResult : Option Solution)
    (gapDuringFetch gapDuringDelay : List GameAction) (now : Int)
    (timerSeconds : Int) : ConfirmResult :=
  let capturedSuspect := g0.selectedSuspect
  let capturedCluesUsed : Int := g0.revealedClues.length
  let capturedHintsUsed : Int := g0.revealedHints.length
  match fetchResult with
  | none =>
      { game := applyActions now g0 gapDuringFetch
        fetchError := some "Failed to verify your accusation. Please try again."
        isFetchingSolution := false
        recorded := none
        streakUpdated := false }
  | some solution =>
      let g1 := applyActions now g0 gapDuringFetch
      let g2 := gameReducer now g1 (GameAction.SET_SOLUTION solution)
      let g3 := applyActions now g2 gapDuringDelay
      let g4 := gameReducer now g3 GameAction.MAKE_ACCUSATION
      let stars := calculateStars capturedCluesUsed
      let correct := capturedSuspect == some solution.culprit
      { game := g4
        fetchError := none
        isFetchingSolution := false
        recorded := some
          { id := puzzleId
            correct := correct
            cluesUsed := capturedCluesUsed
            timeSeconds := timerSeconds
            stars := stars
            difficulty := some puzzleDifficulty
            hintsUsed := some capturedHintsUsed }
        streakUpdated := (mode == GameMode.daily) && correct }

-- ---------------------------------------------------------------------------
-- Concrete states used by witnesses and counterexamples
-- ---------------------------------------------------------------------------

/-- A completion event descriptor for a correct solve using 2 clues. -/
def completionEventC1 : CompletionInfo :=
  { correct := true
    cluesUsed := 2
    timeSeconds := 100
    stars := 2
    difficulty := some 1
    hintsUsed := some 1 }

/-- A recorded correct completion. -/
def correctEntry : PuzzleCompletion :=
  { solvedAt := "2026-02-08T00:00:00.000Z"
    correct := true
    cluesUsed := 0
    timeSeconds := 45
    stars := 4
    difficulty := none
    hintsUsed := none }

/-- A player record holding nine correct completions. -/
def nineCorrectState : PlayerState :=
  { playerInitialState with
      completedPuzzles :=
        (List.range 9).map (fun i => (toString i, correctEntry)) }

/-- A mid-play session: suspect s1 selected, one clue revealed. -/
def sessionC2 : GameState :=
  { gameInitialState with
      puzzleId := "p1"
      selectedSuspect := some "s1"
      revealedClues := ["c1"] }

def solutionS1 : Solution := { culprit := "s1", explanation := "e", funFact := "f" }

/-- A mid-play session: suspect s1 selected, two clues revealed. -/
def sessionC3 : GameState :=
  { gameInitialState with
      puzzleId := "p1"
      selectedSuspect := some "s1"
      revealedClues := ["c1", "c2"] }

/-- A replacement puzzle started while the stale fetch is in flight. -/
def puzzleTwo : Puzzle :=
  { id := "p2"
    version := 1
    genre := "noir"
    difficulty := 2
    title := "t"
    setting := "s"
    premise := "pr"
    suspects := []
    clues := []
    hints := [] }

/-- A session ready for accusation: s1 selected, solution attached. -/
def sessionC4 : GameState :=
  { gameInitialState with
      selectedSuspect := some "s1"
      solution := some solutionS1 }

def envFeb8 : DateEnv :=
  { nowISO := "2026-02-08T12:00:00.000Z"
    today := "2026-02-08"
    yesterday := "2026-02-07" }

/-- A persisted snapshot that passes the shape validation (all three core
keys present) yet violates the streak invariant and drops history. -/
def badSnapshot : StoredSnapshot :=
  { completedPuzzles := []
    streak := { current := 1, max := 0, lastDailyDate := "" }
    settings := { reduceMotion := false }
    hasSeenTutorial := none
    achievements := none }

/-- The player state after one completion and one unlocked achievement. -/
def midStateC6 : PlayerState :=
  playerReducer envFeb8
    (playerReducer envFeb8 playerInitialState
      (PlayerAction.COMPLETE_PUZZLE "p1" true 0 45 4 none none))
    (PlayerAction.UNLOCK_ACHIEVEMENTS ["first-case"])

/-- The player state after then loading the bad snapshot. -/
def finalStateC6 : PlayerState :=
  playerReducer envFeb8 midStateC6 (PlayerAction.LOAD_STATE badSnapshot)

-- ---------------------------------------------------------------------------
-- Helper lemmas
-- ---------------------------------------------------------------------------

theorem tmod_neg_left (a b : Int) : (-a).tmod b = -(a.tmod b) := by
  rw [Int.tmod_def, Int.tmod_def, Int.neg_tdiv]; ring

theorem double_tmod_range (d p : Int) (hp : 0 < p) :
    0 ≤ (d.tmod p + p).tmod p ∧ (d.tmod p + p).tmod p < p := by
  have hub : d.tmod p < p := Int.tmod_lt_of_pos d hp
  have hlb : -p < d.tmod p := by
    rcases le_or_lt 0 d with hd | hd
    · have h0 := Int.tmod_nonneg p hd
      omega
    · have h2 : (-d).tmod p < p := Int.tmod_lt_of_pos (-d) hp
      have h3 : (-d).tmod p = -(d.tmod p) := tmod_neg_left d p
      omega
  have hge : 0 ≤ d.tmod p + p := by omega
  have heq : (d.tmod p + p).tmod p = (d.tmod p + p) % p :=
    Int.tmod_eq_emod hge (le_of_lt hp)
  constructor
  · rw [heq]; exact Int.emod_nonneg _ (by omega)
  · rw [heq]; exact Int.emod_lt_of_pos _ hp

theorem find?_map_set (m : List (String × PuzzleCompletion)) (k : String)
    (v : PuzzleCompletion) :
    List.find? (fun p => p.fst == k)
        (m.map (fun p => if p.fst == k then (k, v) else p)) =
      if m.any (fun p => p.fst == k) then some (k, v) else none := by
  induction m with
  | nil => rfl
  | cons p rest ih =>
    by_cases hp : p.fst = k
    · simp [hp, -List.find?_map]
    · have hb : (p.fst == k) = false := beq_eq_false_iff_ne.mpr hp
      simp only [List.map_cons, List.any_cons, hb, Bool.false_or,
        Bool.false_eq_true, if_false]
      rw [List.find?_cons_of_neg _ (by simp [hb])]
      exact ih

theorem find?_map_set_ne (m : List (String × PuzzleCompletion)) (k k' : String)
    (v : PuzzleCompletion) (h : ¬ k' = k) :
    List.find? (fun p => p.fst == k')
        (m.map (fun p => if p.fst == k then (k, v) else p)) =
      List.find? (fun p => p.fst == k') m := by
  induction m with
  | nil => rfl
  | cons p rest ih =>
    by_cases hp : p.fst = k
    · have hb : (p.fst == k) = true := beq_iff_eq.mpr hp
      simp only [List.map_cons, hb, if_true]
      rw [List.find?_cons_of_neg _ (by simp [Ne.symm h]),
          List.find?_cons_of_neg _ (by simp [hp, Ne.symm h])]
      exact ih
    · have hb : (p.fst == k) = false := beq_eq_false_iff_ne.mpr hp
      simp only [List.map_cons, hb, Bool.false_eq_true, if_false]
      by_cases hq : p.fst = k'
      · rw [List.find?_cons_of_pos _ (by simp [hq]),
            List.find?_cons_of_pos _ (by simp [hq])]
      · rw [List.find?_cons_of_neg _ (by simp [hq]),
            List.find?_cons_of_neg _ (by simp [hq])]
        exact ih

theorem recordGet_recordSet_self (m : List (String × PuzzleCompletion))
    (k : String) (v : PuzzleCompletion) :
    recordGet (recordSet m k v) k = some v := by
  unfold recordGet recordSet
  by_cases hany : m.any (fun p => p.fst == k)
  · rw [if_pos hany, find?_map_set, if_pos hany]
    rfl
  · rw [if_neg hany, List.find?_append]
    have hnone : List.find? (fun p => p.fst == k) m = none := by
      rw [List.find?_eq_none]
      intro x hx hbeq
      exact hany (List.any_eq_true.mpr ⟨x, hx, hbeq⟩)
    simp [hnone]

theorem recordGet_recordSet_ne (m : List (String × PuzzleCompletion))
    (k k' : String) (v : PuzzleCompletion) (h : ¬ k' = k) :
    recordGet (recordSet m k v) k' = recordGet m k' := by
  unfold recordGet recordSet
  by_cases hany : m.any (fun p => p.fst == k)
  · rw [if_pos hany, find?_map_set_ne m k k' v h]
  · rw [if_neg hany, List.find?_append]
    have hsingle : List.find? (fun p => p.fst == k') [(k, v)] = none := by
      simp [Ne.symm h]
    rw [hsingle, Option.or_none]

theorem recordGet_recordSet_isSome (m : List (String × PuzzleCompletion))
    (k k' : String) (v : PuzzleCompletion)
    (h : (recordGet m k').isSome = true) :
    (recordGet (recordSet m k v) k').isSome = true := by
  by_cases hk : k' = k
  · subst hk
    rw [recordGet_recordSet_self]
    rfl
  · rw [recordGet_recordSet_ne m k k' v hk]
    exact h

theorem updateStreak_max_le (env : DateEnv) (s : PlayerState) :
    s.streak.max ≤ (playerReducer env s PlayerAction.UPDATE_STREAK).streak.max := by
  dsimp only [playerReducer]
  split
  · exact le_refl _
  · exact le_max_left _ _

theorem foldl_updateStreak_max_le (envs : List DateEnv) (s : PlayerState) :
    s.streak.max ≤
      (envs.foldl (fun st e => playerReducer e st PlayerAction.UPDATE_STREAK)
        s).streak.max := by
  induction envs generalizing s with
  | nil => exact le_refl _
  | cons e rest ih => exact le_trans (updateStreak_max_le e s) (ih _)

theorem playerStep_current_le_max (env : DateEnv) (s : PlayerState)
    (a : PlayerAction) (ha : a.isLoadState = false)
    (h : s.streak.current ≤ s.streak.max) :
    (playerReducer env s a).streak.current ≤ (playerReducer env s a).streak.max := by
  cases a with
  | COMPLETE_PUZZLE id c cu ts st d hu => exact h
  | UNLOCK_ACHIEVEMENTS ids =>
      dsimp only [playerReducer]
      split
      · exact h
      · exact h
  | UPDATE_STREAK =>
      dsimp only [playerReducer]
      split
      · exact h
      · exact le_max_right _ _
  | TOGGLE_REDUCE_MOTION => exact h
  | DISMISS_TUTORIAL => exact h
  | LOAD_STATE snap => simp [PlayerAction.isLoadState] at ha

theorem foldl_player_current_le_max (l : List (DateEnv × PlayerAction))
    (s : PlayerState) (hl : ∀ p ∈ l, p.2.isLoadState = false)
    (h : s.streak.current ≤ s.streak.max) :
    (l.foldl (fun st p => playerReducer p.1 st p.2) s).streak.current ≤
      (l.foldl (fun st p => playerReducer p.1 st p.2) s).streak.max := by
  induction l generalizing s with
  | nil => exact h
  | cons p rest ih =>
      exact ih _ (fun q hq => hl q (List.mem_cons_of_mem p hq))
        (playerStep_current_le_max p.1 s p.2 (hl p (List.mem_cons_self p rest)) h)

theorem playerStep_keeps_completion (env : DateEnv) (s : PlayerState)
    (a : PlayerAction) (ha : a.isLoadState = false) (k : String)
    (h : (recordGet s.completedPuzzles k).isSome = true) :
    (recordGet (playerReducer env s a).completedPuzzles k).isSome = true := by
  cases a with
  | COMPLETE_PUZZLE id c cu ts st d hu =>
      exact recordGet_recordSet_isSome _ id k _ h
  | UNLOCK_ACHIEVEMENTS ids =>
      dsimp only [playerReducer]
      split
      · exact h
      · exact h
  | UPDATE_STREAK =>
      dsimp only [playerReducer]
      split
      · exact h
      · exact h
  | TOGGLE_REDUCE_MOTION => exact h
  | DISMISS_TUTORIAL => exact h
  | LOAD_STATE snap => simp [PlayerAction.isLoadState] at ha

theorem playerStep_keeps_achievements (env : DateEnv) (s : PlayerState)
    (a : PlayerAction) (ha : a.isLoadState = false) (id : String)
    (h : id ∈ s.achievements) : id ∈ (playerReducer env s a).achievements := by
  cases a with
  | COMPLETE_PUZZLE pid c cu ts st d hu => exact h
  | UNLOCK_ACHIEVEMENTS ids =>
      dsimp only [playerReducer]
      split
      · exact h
      · exact List.mem_append_left _ h
  | UPDATE_STREAK =>
      dsimp only [playerReducer]
      split
      · exact h
      · exact h
  | TOGGLE_REDUCE_MOTION => exact h
  | DISMISS_TUTORIAL => exact h
  | LOAD_STATE snap => simp [PlayerAction.isLoadState] at ha

-- ---------------------------------------------------------------------------
-- Claim theorems
-- ---------------------------------------------------------------------------

/-- C4: for every session state, dispatching MAKE_ACCUSATION when the status
is playing, a suspect is selected and a solution is attached transitions the
status to solved if the selected suspect equals the culprit and to failed
otherwise, and stamps the solved-at timestamp; dispatching it with no
selected suspect, with no solution, or from a terminal state returns the
state unchanged, so repeated dispatch after reaching solved or failed
changes neither solvedAt nor status. -/
theorem C4_make_accusation (s : GameState) (now : Int) :
    (∀ (sus : String) (sol : Solution), s.status = GameStatus.playing →
        s.selectedSuspect = some sus → s.solution = some sol →
        gameReducer now s GameAction.MAKE_ACCUSATION =
          { s with
              status :=
                if sus == sol.culprit then GameStatus.solved else GameStatus.failed
              solvedAt := some now })
    ∧ (s.selectedSuspect = none →
        gameReducer now s GameAction.MAKE_ACCUSATION = s)
    ∧ (s.solution = none →
        gameReducer now s GameAction.MAKE_ACCUSATION = s)
    ∧ (s.status ≠ GameStatus.playing →
        gameReducer now s GameAction.MAKE_ACCUSATION = s)
    ∧ (∀ now2 : Int,
        (gameReducer now s GameAction.MAKE_ACCUSATION).status ≠ GameStatus.playing →
        gameReducer now2 (gameReducer now s GameAction.MAKE_ACCUSATION)
            GameAction.MAKE_ACCUSATION =
          gameReducer now s GameAction.MAKE_ACCUSATION) := by
  refine ⟨?_, ?_, ?_, ?_, ?_⟩
  · intro sus sol h1 h2 h3
    simp [gameReducer, h1, h2, h3]
  · intro h
    simp only [gameReducer, h]
    split
    · rfl
    · rfl
  · intro h
    simp only [gameReducer, h]
    split
    · rfl
    · cases hs : s.selectedSuspect <;> rfl
  · intro h
    simp [gameReducer, h]
  · intro now2 h
    generalize gameReducer now s GameAction.MAKE_ACCUSATION = t at h ⊢
    simp [gameReducer, h]

/-- C4 witness: the theorem applied to the concrete ready session at time 7
yields the solved state with the stamped timestamp. -/
theorem C4_make_accusation_witness :
    gameReducer 7 sessionC4 GameAction.MAKE_ACCUSATION =
      { sessionC4 with status := GameStatus.solved, solvedAt := some 7 } := by
  have h := (C4_make_accusation sessionC4 7).1 "s1" solutionS1 rfl rfl rfl
  rw [h]
  decide

/-- C5: UPDATE_STREAK is a no-op when lastDailyDate equals today; otherwise
it increments current when lastDailyDate equals yesterday and resets it to 1
in every other case, sets max to the maximum of the old max and the new
current, and stamps lastDailyDate with today; a second same-day dispatch
changes nothing, and max never decreases across any sequence of
UPDATE_STREAK dispatches. -/
theorem C5_update_streak (env : DateEnv) (s : PlayerState) :
    (s.streak.lastDailyDate = env.today →
        playerReducer env s PlayerAction.UPDATE_STREAK = s)
    ∧ (s.streak.lastDailyDate ≠ env.today →
        playerReducer env s PlayerAction.UPDATE_STREAK =
          { s with
              streak :=
                { current :=
                    if s.streak.lastDailyDate = env.yesterday then
                      s.streak.current + 1
                    else 1
                  max :=
                    max s.streak.max
                      (if s.streak.lastDailyDate = env.yesterday then
                        s.streak.current + 1
                      else 1)
                  lastDailyDate := env.today } })
    ∧ playerReducer env (playerReducer env s PlayerAction.UPDATE_STREAK)
        PlayerAction.UPDATE_STREAK =
      playerReducer env s PlayerAction.UPDATE_STREAK
    ∧ s.streak.max ≤ (playerReducer env s PlayerAction.UPDATE_STREAK).streak.max
    ∧ ∀ envs : List DateEnv,
        s.streak.max ≤
          (envs.foldl (fun st e => playerReducer e st PlayerAction.UPDATE_STREAK)
            s).streak.max := by
  refine ⟨?_, ?_, ?_, updateStreak_max_le env s, fun envs => foldl_updateStreak_max_le envs s⟩
  · intro h
    simp [playerReducer, h]
  · intro h
    have hb : (s.streak.lastDailyDate == env.today) = false :=
      beq_eq_false_iff_ne.mpr h
    simp only [playerReducer, hb, Bool.false_eq_true, if_false]
    by_cases hy : s.streak.lastDailyDate = env.yesterday
    · have hyb : (s.streak.lastDailyDate == env.yesterday) = true :=
        beq_iff_eq.mpr hy
      simp [hyb, hy]
    · have hyb : (s.streak.lastDailyDate == env.yesterday) = false :=
        beq_eq_false_iff_ne.mpr hy
      simp [hyb, hy]
  · by_cases h : s.streak.lastDailyDate = env.today
    · have hb : (s.streak.lastDailyDate == env.today) = true := beq_iff_eq.mpr h
      simp [playerReducer, hb]
    · have hb : (s.streak.lastDailyDate == env.today) = false :=
        beq_eq_false_iff_ne.mpr h
      simp [playerReducer, hb]

/-- C5 witness: a first UPDATE_STREAK on the fresh record on Feb 8 sets
current and max to 1 and stamps the date. -/
theorem C5_update_streak_witness :
    playerReducer envFeb8 playerInitialState PlayerAction.UPDATE_STREAK =
      { playerInitialState with
          streak := { current := 1, max := 1, lastDailyDate := "2026-02-08" } } := by
  have h := (C5_update_streak envFeb8 playerInitialState).2.1 (by decide)
  rw [h]
  decide

/-- C7: the scoring functions realise the fixed table 0 to 4-MASTERMIND,
1 to 3-SHARP-EYED, 2 to 2-PERSISTENT, 3 to 1-THOROUGH, every other integer
input falls back to 1-THOROUGH, and the live currentStars value equals 4
minus the number of revealed clues. -/
theorem C7_scoring :
    (calculateStars 0 = 4 ∧ getRatingLabel 0 = "MASTERMIND"
      ∧ calculateStars 1 = 3 ∧ getRatingLabel 1 = "SHARP-EYED"
      ∧ calculateStars 2 = 2 ∧ getRatingLabel 2 = "PERSISTENT"
      ∧ calculateStars 3 = 1 ∧ getRatingLabel 3 = "THOROUGH")
    ∧ (∀ c : Int, c ≠ 0 → c ≠ 1 → c ≠ 2 → c ≠ 3 →
        calculateStars c = 1 ∧ getRatingLabel c = "THOROUGH")
    ∧ ∀ s : GameState,
        currentStars s = 4 - (s.revealedClues.length : Int) := by
  refine ⟨by decide, ?_, ?_⟩
  · intro c h0 h1 h2 h3
    constructor
    · simp [calculateStars, STAR_RATINGS, h0, h1, h2, h3]
    · simp [getRatingLabel, STAR_RATINGS, h0, h1, h2, h3]
  · intro s
    show (MAX_CLUES : Int) + 1 - (s.revealedClues.length : Int) = _
    norm_num [MAX_CLUES]

/-- C7 witness: the out-of-table fallback at the concrete input -2. -/
theorem C7_scoring_witness :
    calculateStars (-2) = 1 ∧ getRatingLabel (-2) = "THOROUGH" :=
  C7_scoring.2.1 (-2) (by decide) (by decide) (by decide) (by decide)

/-- C8: for every pool size at least 1 and every instant, the daily index
equals the double-mod formula over floor((now - EPOCH)/86400000), lies in
[0, poolSize) even when now precedes EPOCH, equals 0 when the pool size is
1, and the displayed puzzle number equals the day count plus 1 independent
of pool size. -/
theorem C8_daily_selector (poolSize now : Int) (hp : 1 ≤ poolSize) :
    getDailyPuzzleIndex poolSize now =
      Int.tmod
        (Int.tmod (Int.fdiv (now - EPOCH) 86400000) poolSize + poolSize)
        poolSize
    ∧ 0 ≤ getDailyPuzzleIndex poolSize now
    ∧ getDailyPuzzleIndex poolSize now < poolSize
    ∧ (poolSize = 1 → getDailyPuzzleIndex poolSize now = 0)
    ∧ getDailyPuzzleNumber now = Int.fdiv (now - EPOCH) 86400000 + 1 := by
  have hp0 : (0 : Int) < poolSize := by omega
  have hr := double_tmod_range (daysSinceEpoch now) poolSize hp0
  refine ⟨rfl, hr.1, hr.2, ?_, rfl⟩
  intro h1
  subst h1
  have h2 := hr.1
  have h3 := hr.2
  have h4 : getDailyPuzzleIndex 1 now =
      Int.tmod (Int.tmod (daysSinceEpoch now) 1 + 1) 1 := rfl
  omega

/-- C8 witness: two days after the epoch with a pool of 7 the index is
in range; spec scenario A values are index 2 and puzzle number 3. -/
theorem C8_daily_selector_witness :
    (0 ≤ getDailyPuzzleIndex 7 1770595200000
      ∧ getDailyPuzzleIndex 7 1770595200000 < 7)
    ∧ getDailyPuzzleIndex 7 1770595200000 = 2
    ∧ getDailyPuzzleNumber 1770595200000 = 3 := by
  refine ⟨⟨(C8_daily_selector 7 1770595200000 (by decide)).2.1,
    (C8_daily_selector 7 1770595200000 (by decide)).2.2.1⟩, by decide, by decide⟩

/-- C9: when the solution fetch fails during accusation-confirm, the error
is caught locally: the confirm flow dispatches nothing to the session (in
the absence of other user actions the session state is entirely unchanged,
status still playing), no Completion is recorded, no streak update is
dispatched, a retryable error message is exposed, and re-invoking the
confirm action captures the same suspect and clue-count values. -/
theorem C9_fetch_failure (g0 : GameState) (puzzleId : String)
    (puzzleDifficulty : Int) (mode : GameMode) (gap : List GameAction)
    (now t : Int) :
    (runConfirmAccusation g0 puzzleId puzzleDifficulty mode none gap [] now
        t).game = applyActions now g0 gap
    ∧ (runConfirmAccusation g0 puzzleId puzzleDifficulty mode none gap [] now
        t).fetchError =
      some "Failed to verify your accusation. Please try again."
    ∧ (runConfirmAccusation g0 puzzleId puzzleDifficulty mode none gap [] now
        t).isFetchingSolution = false
    ∧ (runConfirmAccusation g0 puzzleId puzzleDifficulty mode none gap [] now
        t).recorded = none
    ∧ (runConfirmAccusation g0 puzzleId puzzleDifficulty mode none gap [] now
        t).streakUpdated = false
    ∧ (runConfirmAccusation g0 puzzleId puzzleDifficulty mode none [] [] now
        t).game = g0
    ∧ confirmCapture
        ((runConfirmAccusation g0 puzzleId puzzleDifficulty mode none [] []
            now t).game) = confirmCapture g0 :=
  ⟨rfl, rfl, rfl, rfl, rfl, rfl, rfl⟩

/-- C10: dispatching COMPLETE_PUZZLE changes only the completedPuzzles
field, inserting or replacing the entry for the given puzzle id; streak,
settings, hasSeenTutorial and achievements are unchanged, and lookups of
every other puzzle id are unchanged. -/
theorem C10_complete_puzzle_frame (env : DateEnv) (s : PlayerState)
    (id : String) (correct : Bool) (cluesUsed timeSeconds stars : Int)
    (difficulty hintsUsed : Option Int) :
    (playerReducer env s (PlayerAction.COMPLETE_PUZZLE id correct cluesUsed
        timeSeconds stars difficulty hintsUsed)).streak = s.streak
    ∧ (playerReducer env s (PlayerAction.COMPLETE_PUZZLE id correct cluesUsed
        timeSeconds stars difficulty hintsUsed)).settings = s.settings
    ∧ (playerReducer env s (PlayerAction.COMPLETE_PUZZLE id correct cluesUsed
        timeSeconds stars difficulty hintsUsed)).hasSeenTutorial =
      s.hasSeenTutorial
    ∧ (playerReducer env s (PlayerAction.COMPLETE_PUZZLE id correct cluesUsed
        timeSeconds stars difficulty hintsUsed)).achievements = s.achievements
    ∧ (playerReducer env s (PlayerAction.COMPLETE_PUZZLE id correct cluesUsed
        timeSeconds stars difficulty hintsUsed)).completedPuzzles =
      recordSet s.completedPuzzles id
        { solvedAt := env.nowISO
          correct := correct
          cluesUsed := cluesUsed
          timeSeconds := timeSeconds
          stars := stars
          difficulty := difficulty
          hintsUsed := hintsUsed }
    ∧ recordGet
        (playerReducer env s (PlayerAction.COMPLETE_PUZZLE id correct
            cluesUsed timeSeconds stars difficulty hintsUsed)).completedPuzzles
        id =
      some
        { solvedAt := env.nowISO
          correct := correct
          cluesUsed := cluesUsed
          timeSeconds := timeSeconds
          stars := stars
          difficulty := difficulty
          hintsUsed := hintsUsed }
    ∧ ∀ k : String, k ≠ id →
        recordGet
          (playerReducer env s (PlayerAction.COMPLETE_PUZZLE id correct
              cluesUsed timeSeconds stars difficulty
              hintsUsed)).completedPuzzles k =
        recordGet s.completedPuzzles k := by
  refine ⟨rfl, rfl, rfl, rfl, rfl, ?_, ?_⟩
  · exact recordGet_recordSet_self s.completedPuzzles id _
  · intro k hk
    exact recordGet_recordSet_ne s.completedPuzzles id k _ hk

/-- C10 witness: the frame property applied on the fresh record for the
concrete puzzle id p with the unrelated key q. -/
theorem C10_complete_puzzle_frame_witness :
    recordGet
      (playerReducer envFeb8 playerInitialState
          (PlayerAction.COMPLETE_PUZZLE "p" true 0 45 4 none
            none)).completedPuzzles "q" =
    recordGet playerInitialState.completedPuzzles "q" :=
  (C10_complete_puzzle_frame envFeb8 playerInitialState "p" true 0 45 4 none
    none).2.2.2.2.2.2 "q" (by decide)

/-- C1: on the concrete failing input, the achievement evaluator does not
merge the just-completed event into the total-correct count: a fresh
player record with a correct completion event yields a result without
first-case, and nine prior correct completions plus a correct incoming
event (ten correct completions counting the incoming one) yield a result
without veteran. -/
theorem C1_achievements_ignore_incoming_event :
    checkAchievements playerInitialState completionEventC1 none = []
    ∧ completionEventC1.correct = true
    ∧ playerInitialState.completedPuzzles = []
    ∧ playerInitialState.achievements = []
    ∧ "first-case" ∉ checkAchievements playerInitialState completionEventC1 none
    ∧ ((nineCorrectState.completedPuzzles.map Prod.snd).filter
          (fun c => c.correct)).length + 1 = 10
    ∧ "veteran" ∉ checkAchievements nineCorrectState completionEventC1 none := by
  refine ⟨by decide, by decide, by decide, by decide, by decide, by decide, by decide⟩

/-- C2 (counterexample): two confirm executions from the same captured
session state, receiving the same fetched solution, that differ only in a
SELECT_SUSPECT dispatched during the deliberation gap, produce different
session verdicts (solved versus failed) while recording identical
Completions — the session verdict does depend on live state. -/
theorem C2_counterexample :
    (runConfirmAccusation sessionC2 "p1" 1 GameMode.daily (some solutionS1)
        [] [] 100 42).game.status = GameStatus.solved
    ∧ (runConfirmAccusation sessionC2 "p1" 1 GameMode.daily (some solutionS1)
        [] [GameAction.SELECT_SUSPECT "s2"] 100 42).game.status =
      GameStatus.failed
    ∧ (runConfirmAccusation sessionC2 "p1" 1 GameMode.daily (some solutionS1)
        [] [] 100 42).recorded =
      (runConfirmAccusation sessionC2 "p1" 1 GameMode.daily (some solutionS1)
        [] [GameAction.SELECT_SUSPECT "s2"] 100 42).recorded := by
  refine ⟨by decide, by decide, by decide⟩

/-- C2 (amended): the recorded Completion and the streak-update decision of
the confirm flow depend only on the values captured before the first
suspension point and on the fetched solution — they are identical across
any two executions differing arbitrarily in the session actions dispatched
during the fetch and deliberation gaps and in the accusation timestamp. -/
theorem C2_completion_noninterference (g0 : GameState) (puzzleId : String)
    (puzzleDifficulty : Int) (mode : GameMode) (sol : Solution)
    (gap1 gap2 gap1' gap2' : List GameAction) (now now' t : Int) :
    (runConfirmAccusation g0 puzzleId puzzleDifficulty mode (some sol) gap1
        gap2 now t).recorded =
      (runConfirmAccusation g0 puzzleId puzzleDifficulty mode (some sol) gap1'
        gap2' now' t).recorded
    ∧ (runConfirmAccusation g0 puzzleId puzzleDifficulty mode (some sol) gap1
        gap2 now t).streakUpdated =
      (runConfirmAccusation g0 puzzleId puzzleDifficulty mode (some sol) gap1'
        gap2' now' t).streakUpdated :=
  ⟨rfl, rfl⟩

/-- C3: on the concrete failing input, a START_PUZZLE dispatched while the
solution fetch is in flight does not cause the stale resolution to be
ignored: the resolution attaches the stale solution to the replacement
session, unconditionally records a Completion for the old puzzle, and if a
suspect is selected in the new session before the delayed accusation fires,
the replacement session is judged against the stale culprit and fails. -/
theorem C3_stale_resolution_mutates_replacement_session :
    (runConfirmAccusation sessionC3 "p1" 1 GameMode.daily (some solutionS1)
        [GameAction.START_PUZZLE puzzleTwo GameMode.daily] [] 100
        42).game.puzzleId = "p2"
    ∧ (runConfirmAccusation sessionC3 "p1" 1 GameMode.daily (some solutionS1)
        [GameAction.START_PUZZLE puzzleTwo GameMode.daily] [] 100
        42).game.solution = some solutionS1
    ∧ (runConfirmAccusation sessionC3 "p1" 1 GameMode.daily (some solutionS1)
        [GameAction.START_PUZZLE puzzleTwo GameMode.daily] [] 100
        42).game.status = GameStatus.playing
    ∧ (runConfirmAccusation sessionC3 "p1" 1 GameMode.daily (some solutionS1)
        [GameAction.START_PUZZLE puzzleTwo GameMode.daily] [] 100
        42).recorded =
      some
        { id := "p1"
          correct := true
          cluesUsed := 2
          timeSeconds := 42
          stars := 2
          difficulty := some 1
          hintsUsed := some 0 }
    ∧ (runConfirmAccusation sessionC3 "p1" 1 GameMode.daily (some solutionS1)
        [GameAction.START_PUZZLE puzzleTwo GameMode.daily]
        [GameAction.SELECT_SUSPECT "s2"] 100 42).game.status =
      GameStatus.failed := by
  refine ⟨by decide, by decide, by decide, by decide, by decide⟩

/-- C6 (counterexample): from the initial state, COMPLETE_PUZZLE and
UNLOCK_ACHIEVEMENTS produce a state with one completion and one
achievement; a subsequent LOAD_STATE of a snapshot that passes the shape
validation but carries current 1 and max 0 yields a reachable state with
streak.current exceeding streak.max, with the p1 completion removed, and
with the achievement gone. -/
theorem C6_counterexample :
    (recordGet midStateC6.completedPuzzles "p1").isSome = true
    ∧ "first-case" ∈ midStateC6.achievements
    ∧ midStateC6.streak.current ≤ midStateC6.streak.max
    ∧ finalStateC6.streak.max < finalStateC6.streak.current
    ∧ recordGet finalStateC6.completedPuzzles "p1" = none
    ∧ "first-case" ∉ finalStateC6.achievements := by
  refine ⟨by decide, by decide, by decide, by decide, by decide, by decide⟩

/-- C6 (amended): every state reachable from the initial player state by
COMPLETE_PUZZLE, UNLOCK_ACHIEVEMENTS, UPDATE_STREAK, TOGGLE_REDUCE_MOTION
and DISMISS_TUTORIAL satisfies streak.current at most streak.max, and none
of these transitions removes a completedPuzzles entry or an unlocked
achievement id; LOAD_STATE is excluded because the load-time shape
validation does not enforce any of the three properties. -/
theorem C6_invariants :
    (∀ l : List (DateEnv × PlayerAction),
        (∀ p ∈ l, p.2.isLoadState = false) →
        (l.foldl (fun st p => playerReducer p.1 st p.2)
            playerInitialState).streak.current ≤
          (l.foldl (fun st p => playerReducer p.1 st p.2)
            playerInitialState).streak.max)
    ∧ (∀ (env : DateEnv) (s : PlayerState) (a : PlayerAction),
        a.isLoadState = false → ∀ k : String,
        (recordGet s.completedPuzzles k).isSome = true →
        (recordGet (playerReducer env s a).completedPuzzles k).isSome = true)
    ∧ (∀ (env : DateEnv) (s : PlayerState) (a : PlayerAction),
        a.isLoadState = false → ∀ id : String,
        id ∈ s.achievements → id ∈ (playerReducer env s a).achievements) := by
  refine ⟨?_, playerStep_keeps_completion, playerStep_keeps_achievements⟩
  intro l hl
  exact foldl_player_current_le_max l playerInitialState hl (le_refl 0)

/-- C6 witness: the invariant applied to the concrete one-step sequence
consisting of a single UPDATE_STREAK. -/
theorem C6_invariants_witness :
    ([(envFeb8, PlayerAction.UPDATE_STREAK)].foldl
        (fun st p => playerReducer p.1 st p.2)
        playerInitialState).streak.current ≤
      ([(envFeb8, PlayerAction.UPDATE_STREAK)].foldl
        (fun st p => playerReducer p.1 st p.2)
        playerInitialState).streak.max :=
  C6_invariants.1 [(envFeb8, PlayerAction.UPDATE_STREAK)]
    (by intro p hp; simp at hp; rw [hp]; rfl)

end SuspectGame
